import Mathlib

/-!
# Verification of the startup-sim agent core

A shallow embedding of the pitch-generation pipeline of this repository:
the JSON handling used by the result formatter (`json.loads` / `json.dumps`
on the payload fragment the system actually exchanges), the generator and
context tools' `execute` methods, and the orchestrator `SimpleAgent.run`
from `agent.py`.  External effects (network, LLM endpoint, clock, Galileo
availability) are environment parameters; everything else follows the
Python source line by line.
-/

namespace StartupSim

/-- Python exceptions that the modelled code can raise or propagate.
`attributeError` models the `AttributeError` raised by `.get` on a
non-dict; the payload of `exn` is the message of any other exception
(network failures, tool-internal raises, ...). -/
inductive PyErr where
  | attributeError
  | valueError (msg : String)
  | exn (msg : String)
deriving DecidableEq, Repr

/-- JSON values, as produced by Python's `json` module on the payloads this
system exchanges (numbers restricted to integers: no float literal occurs
in any payload the code builds or parses). -/
inductive JValue where
  | jnull
  | jbool (b : Bool)
  | jnum (n : Int)
  | jstr (s : String)
  | jarr (items : List JValue)
  | jobj (fields : List (String × JValue))

/-- Lower-case hex digit for `n < 16`, as used in JSON `\u00XX` escapes. -/
def hexDigitChar (n : Nat) : Char :=
  if n < 10 then Char.ofNat (48 + n) else Char.ofNat (87 + n)

/-- Value of a hex digit character, `none` on a non-hex character. -/
def hexVal (c : Char) : Option Nat :=
  if 48 ≤ c.toNat ∧ c.toNat ≤ 57 then some (c.toNat - 48)
  else if 97 ≤ c.toNat ∧ c.toNat ≤ 102 then some (c.toNat - 87)
  else if 65 ≤ c.toNat ∧ c.toNat ≤ 70 then some (c.toNat - 55)
  else none

/-- JSON escape of one character inside a string literal: `"` and `\` get a
backslash escape, control characters a `\u00XX` escape, everything else is
emitted verbatim. -/
def escCharL (c : Char) : List Char :=
  if c = '"' then ['\\', '"']
  else if c = '\\' then ['\\', '\\']
  else if c.toNat < 32 then
    ['\\', 'u', '0', '0', hexDigitChar (c.toNat / 16), hexDigitChar (c.toNat % 16)]
  else [c]

/-- JSON encoding of a string, including the surrounding quotes
(model of how `json.dumps` serialises a `str`). -/
def encodeJStr (s : String) : String :=
  ⟨'"' :: (s.data.flatMap escCharL ++ ['"'])⟩

mutual
/-- Model of `json.dumps` (compact separators; `json.loads` is
whitespace-insensitive, so the indentation of the Python original is
irrelevant to every consumer in the system). -/
def jsonDumps : JValue → String
  | .jnull => "null"
  | .jbool true => "true"
  | .jbool false => "false"
  | .jnum n => toString n
  | .jstr s => encodeJStr s
  | .jarr xs => ⟨'[' :: ((dumpsItems xs).data ++ [']'])⟩
  | .jobj fs => ⟨'\x7b' :: ((dumpsFields fs).data ++ ['\x7d'])⟩

/-- Comma-separated serialisation of array items. -/
def dumpsItems : List JValue → String
  | [] => ""
  | [x] => jsonDumps x
  | x :: y :: xs => jsonDumps x ++ ", " ++ dumpsItems (y :: xs)

/-- Comma-separated serialisation of object members. -/
def dumpsFields : List (String × JValue) → String
  | [] => ""
  | [(k, v)] => encodeJStr k ++ ": " ++ jsonDumps v
  | (k, v) :: m :: fs => encodeJStr k ++ ": " ++ jsonDumps v ++ ", " ++ dumpsFields (m :: fs)
end

/-- Skip JSON whitespace. -/
def skipWs : List Char → List Char
  | [] => []
  | c :: rest =>
    if c = ' ' ∨ c = '\t' ∨ c = '\n' ∨ c = '\r' then skipWs rest else c :: rest

/-- Parse the body of a JSON string literal (the opening quote already
consumed); returns the decoded characters and the input after the closing
quote.  Raw control characters are rejected, as `json.loads` does in its
default strict mode. -/
def parseStringBody : List Char → Option (List Char × List Char)
  | [] => none
  | c :: rest =>
    if c = '"' then some ([], rest)
    else if c = '\\' then
      match rest with
      | [] => none
      | e :: rest2 =>
        if e = '"' then (parseStringBody rest2).map (fun p => ('"' :: p.1, p.2))
        else if e = '\\' then (parseStringBody rest2).map (fun p => ('\\' :: p.1, p.2))
        else if e = '/' then (parseStringBody rest2).map (fun p => ('/' :: p.1, p.2))
        else if e = 'b' then (parseStringBody rest2).map (fun p => ('\x08' :: p.1, p.2))
        else if e = 'f' then (parseStringBody rest2).map (fun p => ('\x0c' :: p.1, p.2))
        else if e = 'n' then (parseStringBody rest2).map (fun p => ('\n' :: p.1, p.2))
        else if e = 'r' then (parseStringBody rest2).map (fun p => ('\r' :: p.1, p.2))
        else if e = 't' then (parseStringBody rest2).map (fun p => ('\t' :: p.1, p.2))
        else if e = 'u' then
          match rest2 with
          | h1 :: h2 :: h3 :: h4 :: rest3 =>
            match hexVal h1, hexVal h2, hexVal h3, hexVal h4 with
            | some a, some b, some c2, some d =>
              (parseStringBody rest3).map
                (fun p => (Char.ofNat (((a * 16 + b) * 16 + c2) * 16 + d) :: p.1, p.2))
            | _, _, _, _ => none
          | _ => none
        else none
    else if c.toNat < 32 then none
    else (parseStringBody rest).map (fun p => (c :: p.1, p.2))

/-- Longest digit span at the head of the input, as a number and the rest. -/
def parseDigits : List Char → Option (Nat × List Char)
  | input =>
    let ds := input.takeWhile (fun c => c.isDigit)
    let rest := input.dropWhile (fun c => c.isDigit)
    if ds = [] then none
    else some (ds.foldl (fun acc c => acc * 10 + (c.toNat - 48)) 0, rest)

mutual
/-- Model of `json.loads`'s recursive-descent value production, fueled for
termination (the fuel supplied by `jsonParse` always suffices). -/
def parseValue : Nat → List Char → Option (JValue × List Char)
  | 0, _ => none
  | Nat.succ fuel, input =>
    match skipWs input with
    | [] => none
    | c :: rest =>
      if c = '"' then (parseStringBody rest).map (fun p => (.jstr ⟨p.1⟩, p.2))
      else if c = '\x7b' then parseObjBody fuel rest
      else if c = '[' then parseArrBody fuel rest
      else if c = '-' then (parseDigits rest).map (fun p => (.jnum (-(p.1 : Int)), p.2))
      else if c.isDigit then (parseDigits (c :: rest)).map (fun p => (.jnum (p.1 : Int), p.2))
      else
        match c :: rest with
        | 't' :: 'r' :: 'u' :: 'e' :: r => some (.jbool true, r)
        | 'f' :: 'a' :: 'l' :: 's' :: 'e' :: r => some (.jbool false, r)
        | 'n' :: 'u' :: 'l' :: 'l' :: r => some (.jnull, r)
        | _ => none

/-- Parse an object after its opening brace: either an immediate closing
brace or a member list. -/
def parseObjBody : Nat → List Char → Option (JValue × List Char)
  | 0, _ => none
  | Nat.succ fuel, input =>
    match skipWs input with
    | [] => none
    | c :: rest =>
      if c = '\x7d' then some (.jobj [], rest)
      else parseMembers fuel (c :: rest) []

/-- Parse `"key": value` members separated by commas, up to the closing
brace; `acc` holds the members read so far in order. -/
def parseMembers : Nat → List Char → List (String × JValue) → Option (JValue × List Char)
  | 0, _, _ => none
  | Nat.succ fuel, input, acc =>
    match skipWs input with
    | [] => none
    | c :: rest =>
      if c = '"' then
        match parseStringBody rest with
        | none => none
        | some (key, afterKey) =>
          match skipWs afterKey with
          | ':' :: afterColon =>
            match parseValue fuel afterColon with
            | none => none
            | some (v, afterVal) =>
              match skipWs afterVal with
              | ',' :: afterComma => parseMembers fuel afterComma (acc ++ [(⟨key⟩, v)])
              | '\x7d' :: afterBrace => some (.jobj (acc ++ [(⟨key⟩, v)]), afterBrace)
              | _ => none
          | _ => none
      else none

/-- Parse an array after its opening bracket. -/
def parseArrBody : Nat → List Char → Option (JValue × List Char)
  | 0, _ => none
  | Nat.succ fuel, input =>
    match skipWs input with
    | [] => none
    | c :: rest =>
      if c = ']' then some (.jarr [], rest)
      else parseItems fuel (c :: rest) []

/-- Parse comma-separated array items up to the closing bracket. -/
def parseItems : Nat → List Char → List JValue → Option (JValue × List Char)
  | 0, _, _ => none
  | Nat.succ fuel, input, acc =>
    match parseValue fuel input with
    | none => none
    | some (v, afterVal) =>
      match skipWs afterVal with
      | ',' :: afterComma => parseItems fuel afterComma (acc ++ [v])
      | ']' :: afterBracket => some (.jarr (acc ++ [v]), afterBracket)
      | _ => none
end

/-- Model of `json.loads`: parse one value and require only whitespace to
remain; `none` models `json.JSONDecodeError`. -/
def jsonParse (s : String) : Option JValue :=
  match parseValue (s.data.length + 4) s.data with
  | some (v, rest) => if skipWs rest = [] then some v else none
  | none => none

/-- The serialisation `json.dumps({"pitch": x})`, the canonical JSON text
of an object with a single `pitch` member. -/
def pitchJson (x : String) : String := jsonDumps (.jobj [("pitch", .jstr x)])

/-- The whitespace characters removed by Python's `str.strip()`. -/
def isPySpace (c : Char) : Bool :=
  c = ' ' || c = '\t' || c = '\n' || c = '\r' || c = '\x0b' || c = '\x0c'

/-- Model of Python's `str.strip()`. -/
def pyStrip (s : String) : String :=
  ⟨((s.data.dropWhile isPySpace).reverse.dropWhile isPySpace).reverse⟩

/-- Model of Python's `dict.get(key, default)` on a decoded JSON object.
Python dicts keep the last binding for a duplicated key, hence the search
from the right. -/
def dictGet (fields : List (String × JValue)) (key : String) (dflt : JValue) : JValue :=
  match fields.reverse.find? (fun p => p.1 == key) with
  | some p => p.2
  | none => dflt

/-- `len()` is defined on the values `_format_result` can extract as a
pitch only when they are strings, lists or dicts; on a number, boolean or
null the `len(pitch)` in the observability span raises `TypeError`. -/
def pyLenDefined : JValue → Bool
  | .jstr _ => true
  | .jarr _ => true
  | .jobj _ => true
  | _ => false

/-- The pitch value is passed to `len(...)` (span bookkeeping) right after
extraction; that raises `TypeError` when `len` is undefined on it. -/
def lenGuard (pitch : JValue) : Except PyErr JValue :=
  if pyLenDefined pitch then .ok pitch else .error (.exn "TypeError: object of this type has no len")

/-- One iteration body of `_format_result`'s scan (`agent.py:176-255`),
applied to the first matching entry's raw result: a `str` result is
`json.loads`-decoded (`JSONDecodeError` is caught and the string returned
verbatim; a decoded non-dict makes the subsequent `.get` raise
`AttributeError`, which the outer handler re-raises); any other result has
`.get("pitch", "")` applied directly. -/
def pitchOf (result : JValue) : Except PyErr JValue :=
  match result with
  | .jstr s =>
    match jsonParse s with
    | some (.jobj fields) => lenGuard (dictGet fields "pitch" (.jstr ""))
    | some _ => .error .attributeError
    | none => .ok (.jstr s)
  | .jobj fields => lenGuard (dictGet fields "pitch" (.jstr ""))
  | _ => .error .attributeError

/-- First entry of the results list carrying the given tool name. -/
def findToolResult (results : List (String × JValue)) (name : String) : Option JValue :=
  (results.find? (fun p => p.1 == name)).map (fun p => p.2)

/-- Model of `SimpleAgent._format_result` (`agent.py:139-264`): scan for a
`startup_simulator` entry first, then for a `serious_startup_simulator`
entry, extract its pitch; with neither entry present return the sentinel.
The `task` argument is used only in log text in the source and does not
affect the result. -/
def formatResult (task : String) (results : List (String × JValue)) : Except PyErr JValue :=
  match findToolResult results "startup_simulator" with
  | some r => pitchOf r
  | none =>
    match findToolResult results "serious_startup_simulator" with
    | some r => pitchOf r
    | none => .ok (.jstr "No startup pitch generated.")

/-! ## Generator tools

`StartupSimulatorTool.execute` and `SeriousStartupSimulatorTool.execute`.
The external text-generation endpoint, the clock and the token counters of
the response are environment parameters; the Galileo branch and the
`_execute_without_galileo` fallback build the same prompt, the same output
record and the same returned JSON string, so one function models both
branches.  An endpoint failure propagates as a raised error and is modelled
at the orchestration layer. -/

/-- External effects of one generator-tool execution. -/
structure GenEnv where
  llm : String → String
  timestamp : String
  inputTokens : Nat
  outputTokens : Nat
  totalTokens : Nat

/-- The prompt `StartupSimulatorTool.execute` builds
(`startup_simulator.py:88-98`). -/
def sillyPrompt (industry audience random_word hn_context : String) : String :=
  "Generate a creative and engaging startup pitch for a " ++ industry
    ++ " company targeting " ++ audience ++ ". The pitch must include the word '"
    ++ random_word ++ "' naturally. Make it fun, innovative, and memorable. "
    ++ "Keep it under 500 characters total."
    ++ (if hn_context ≠ "" then
          "\n\nUse these recent HackerNews stories for inspiration:\n" ++ hn_context
        else "")

/-- The pitch the silly generator produces: the endpoint's message content,
stripped — and nothing else (`startup_simulator.py:110`). -/
def sillyPitch (env : GenEnv) (industry audience random_word hn_context : String) : String :=
  pyStrip (env.llm (sillyPrompt industry audience random_word hn_context))

/-- The structured `output` record the silly generator builds
(`startup_simulator.py:112-123`). -/
def sillyOutput (env : GenEnv) (industry audience random_word hn_context : String) : JValue :=
  .jobj [("pitch", .jstr (sillyPitch env industry audience random_word hn_context)),
         ("character_count", .jnum ((sillyPitch env industry audience random_word hn_context).length : Int)),
         ("mode", .jstr "silly"),
         ("hn_context_used", .jbool (hn_context ≠ "")),
         ("timestamp", .jstr env.timestamp),
         ("model", .jstr "gpt-4"),
         ("input_tokens", .jnum (env.inputTokens : Int)),
         ("output_tokens", .jnum (env.outputTokens : Int)),
         ("total_tokens", .jnum (env.totalTokens : Int))]

/-- Return value of `StartupSimulatorTool.execute`: the JSON serialisation
of the `galileo_output` wrapper (`startup_simulator.py:153-162`). -/
def startupSimulatorExecute (env : GenEnv) (industry audience random_word hn_context : String) : String :=
  jsonDumps (.jobj
    [("tool_result", .jstr "startup_simulator"),
     ("formatted_output", .jstr (jsonDumps (sillyOutput env industry audience random_word hn_context))),
     ("pitch", .jstr (sillyPitch env industry audience random_word hn_context)),
     ("metadata", sillyOutput env industry audience random_word hn_context)])

/-- The prompt `SeriousStartupSimulatorTool.execute` builds
(`serious_startup_simulator.py:87-97`). -/
def seriousPrompt (industry audience random_word news_context : String) : String :=
  "Generate a professional startup business plan for a " ++ industry
    ++ " company targeting " ++ audience ++ ". The plan must incorporate the concept '"
    ++ random_word ++ "' naturally. Be formal, avoid humor, and keep it under 500 characters total."
    ++ (if news_context ≠ "" then
          "\n\nUse these recent business news trends for market analysis:\n" ++ news_context
        else "")

/-- The pitch the serious generator produces: the endpoint's message
content, stripped — and nothing else (`serious_startup_simulator.py:110`). -/
def seriousPitch (env : GenEnv) (industry audience random_word news_context : String) : String :=
  pyStrip (env.llm (seriousPrompt industry audience random_word news_context))

/-- The structured `output` record the serious generator builds
(`serious_startup_simulator.py:112-123`). -/
def seriousOutput (env : GenEnv) (industry audience random_word news_context : String) : JValue :=
  .jobj [("pitch", .jstr (seriousPitch env industry audience random_word news_context)),
         ("character_count", .jnum ((seriousPitch env industry audience random_word news_context).length : Int)),
         ("mode", .jstr "serious"),
         ("news_context_used", .jbool (news_context ≠ "")),
         ("timestamp", .jstr env.timestamp),
         ("model", .jstr "gpt-4"),
         ("input_tokens", .jnum (env.inputTokens : Int)),
         ("output_tokens", .jnum (env.outputTokens : Int)),
         ("total_tokens", .jnum (env.totalTokens : Int))]

/-- Return value of `SeriousStartupSimulatorTool.execute`
(`serious_startup_simulator.py:153-161`). -/
def seriousStartupSimulatorExecute (env : GenEnv) (industry audience random_word news_context : String) : String :=
  jsonDumps (.jobj
    [("tool_result", .jstr "serious_startup_simulator"),
     ("formatted_output", .jstr (jsonDumps (seriousOutput env industry audience random_word news_context))),
     ("pitch", .jstr (seriousPitch env industry audience random_word news_context)),
     ("metadata", seriousOutput env industry audience random_word news_context)])

/-! ## HackerNews context tool

`HackerNewsTool` (`hackernews_tool.py`), with the lifetime of its
`aiohttp.ClientSession` made explicit: the Boolean threaded through the
functions is `true` while the tool instance holds an open session.  The
agent constructs the tool fresh per run and calls `execute` directly (not
through the tool's `async with` context manager, whose `__aexit__` is the
only place the pooled session is closed). -/

/-- A story as returned by the item endpoint and turned into an `HNStory`;
`none` on an optional field models Python `None`. -/
structure HNItem where
  id : Int
  title : String
  url : Option String
  score : Int
  byUser : String
  time : Int
  text : Option String
  descendants : Int
  itemType : String

/-- `HNStory.__dict__` as a JSON-serialisable record
(`hackernews_tool.py:114-124` and `217/225`). -/
def HNItem.toJ (st : HNItem) : JValue :=
  .jobj [("id", .jnum st.id),
         ("title", .jstr st.title),
         ("url", match st.url with | some u => .jstr u | none => .jnull),
         ("score", .jnum st.score),
         ("by", .jstr st.byUser),
         ("time", .jnum st.time),
         ("text", match st.text with | some t => .jstr t | none => .jnull),
         ("descendants", .jnum st.descendants),
         ("type", .jstr st.itemType)]

/-- External effects of one HackerNews-tool execution: whether the
centralized Galileo logger is available, and the outcome of each network
fetch + JSON decode (`.error` = the request or its decoding raised;
`.ok none` = the endpoint answered with an empty/filtered-out payload). -/
structure HNEnv where
  galileoAvailable : Bool
  topStories : Except PyErr (List Int)
  item : Int → Except PyErr (Option HNItem)

/-- `HackerNewsTool.get_top_stories` (`hackernews_tool.py:129-138`): the
`session` property opens a session first; any error is caught and `[]`
returned.  Result: story ids and the session state afterwards. -/
def hnGetTopStories (env : HNEnv) (limit : Nat) : List Int × Bool :=
  match env.topStories with
  | .ok ids => (ids.take limit, true)
  | .error _ => ([], true)

/-- `HackerNewsTool.get_story` (`hackernews_tool.py:103-127`): opens the
session, fetches one item; any error is caught and `None` returned. -/
def hnGetStory (env : HNEnv) (storyId : Int) : Option HNItem × Bool :=
  match env.item storyId with
  | .ok o => (o, true)
  | .error _ => (none, true)

/-- The story-collection loop of `HackerNewsTool.execute`
(`hackernews_tool.py:220-225`), threading the session state. -/
def hnCollect (env : HNEnv) (sessionOpen : Bool) : List Int → List HNItem × Bool
  | [] => ([], sessionOpen)
  | storyId :: rest =>
    let (o, s1) := hnGetStory env storyId
    let (stories, s2) := hnCollect env s1 rest
    (match o with | some st => st :: stories | none => stories, s2)

/-- The `output` record of the Galileo branch (`hackernews_tool.py:227-233`). -/
def hnOutput (stories : List HNItem) (limit : Nat) : JValue :=
  .jobj [("stories", .jarr (stories.map HNItem.toJ)),
         ("total_stories", .jnum (stories.length : Int)),
         ("limit", .jnum (limit : Int)),
         ("story_id", .jnull)]

/-- The returned `galileo_output` wrapper (`hackernews_tool.py:262-270`). -/
def hnGalileoOutput (stories : List HNItem) (limit : Nat) : JValue :=
  .jobj [("tool_result", .jstr "hackernews_tool"),
         ("formatted_output", .jstr (jsonDumps (hnOutput stories limit))),
         ("stories", .jarr (stories.map HNItem.toJ)),
         ("metadata", hnOutput stories limit)]

/-- The item-fetch loop of `_execute_without_galileo`
(`hackernews_tool.py:290-303`): a non-200 item response is skipped
(`.ok none`), but a decode error raises out of the loop (`.error`),
closing the scoped session on the way. -/
def hnCollectFallback (env : HNEnv) : List Int → Except PyErr (List HNItem)
  | [] => .ok []
  | storyId :: rest =>
    match env.item storyId with
    | .error e => .error e
    | .ok o =>
      match hnCollectFallback env rest with
      | .error e => .error e
      | .ok stories => .ok (match o with | some st => st :: stories | none => stories)

/-- One fallback story line, `f"• \x7bstory['title']\x7d (Score: \x7bstory['score']\x7d)"`. -/
def hnFallbackLine (st : HNItem) : String :=
  "• " ++ st.title ++ " (Score: " ++ toString st.score ++ ")"

/-- The six-field story dict of the fallback path (`hackernews_tool.py:296-303`). -/
def hnFallbackStory (st : HNItem) : JValue :=
  .jobj [("id", .jnum st.id),
         ("title", .jstr st.title),
         ("url", match st.url with | some u => .jstr u | none => .jnull),
         ("score", .jnum st.score),
         ("by", .jstr st.byUser),
         ("time", .jnum st.time)]

/-- `HackerNewsTool._execute_without_galileo` (`hackernews_tool.py:278-330`):
a scoped `async with aiohttp.ClientSession()`, so the session is closed on
return *and* on raise; a non-200 top-stories response raises. -/
def hnExecuteFallback (env : HNEnv) (timestamp : String) (limit : Nat) :
    Except PyErr String × Bool :=
  match env.topStories with
  | .error _ => (.error (.exn "Failed to fetch top stories"), false)
  | .ok ids =>
    match hnCollectFallback env (ids.take limit) with
    | .error e => (.error e, false)
    | .ok stories =>
      let context := String.intercalate "\n" (stories.map hnFallbackLine)
      let output : JValue :=
        .jobj [("stories", .jarr (stories.map hnFallbackStory)),
               ("formatted_context", .jstr context),
               ("story_count", .jnum (stories.length : Int)),
               ("requested_limit", .jnum (limit : Int)),
               ("timestamp", .jstr timestamp),
               ("source", .jstr "hackernews")]
      (.ok (jsonDumps (.jobj
        [("tool_result", .jstr "hackernews_tool"),
         ("formatted_output", .jstr (jsonDumps output)),
         ("context", .jstr context),
         ("metadata", output)])), false)

/-- `HackerNewsTool.execute` with `story_id = None` (the only way the agent
calls it, `agent.py:292`): result and the session state when it returns.
On the Galileo branch nothing ever closes the session opened by the
`session` property; the fallback branch uses a scoped session. -/
def hackerNewsExecute (env : HNEnv) (timestamp : String) (limit : Nat) :
    Except PyErr String × Bool :=
  if env.galileoAvailable then
    let (ids, s1) := hnGetTopStories env limit
    let (stories, s2) := hnCollect env s1 ids
    (.ok (jsonDumps (hnGalileoOutput stories limit)), s2)
  else
    hnExecuteFallback env timestamp limit

/-! ## Orchestrator: `SimpleAgent.run`

`agent.py:488-642` with its `_execute_*` helpers.  The registry contents,
the tools' execution outcomes and the NewsAPI key presence are environment
parameters.  `run` is modelled as the pair of its Python outcome (the
structured `workflow_result`, or the propagated exception) and the trace of
tool/`execute` invocations plus the `_format_result` call, in order. -/

/-- External effects and configuration of one agent run. -/
structure AgentEnv where
  hasTool : String → Bool
  newsApiKeyPresent : Bool
  hnExec : Nat → Except PyErr String
  newsExec : String → Nat → Except PyErr String
  sillyExec : String → String → String → String → Except PyErr String
  seriousExec : String → String → String → String → Except PyErr String

/-- Observable invocations during a run: a tool `execute` call with its
arguments, and the `_format_result` call. -/
inductive Event where
  | toolExec (toolName : String) (args : List String)
  | formatCall
deriving DecidableEq, Repr

/-- `SimpleAgent._execute_hackernews_tool` (`agent.py:266-317`): a missing
registry entry returns `""` without invoking anything; otherwise the tool's
`execute` is invoked and its error, if any, re-raised. -/
def executeHackernewsTool (env : AgentEnv) (limit : Nat) : Except PyErr String × List Event :=
  if env.hasTool "hackernews_tool" then
    (env.hnExec limit, [.toolExec "hackernews_tool" [toString limit]])
  else (.ok "", [])

/-- `SimpleAgent._execute_news_api_tool` (`agent.py:319-370`); the
`NewsAPITool` constructor raises `ValueError` when `NEWS_API_KEY` is absent
(`news_api_tool.py:82-84`), before `execute` is reached. -/
def executeNewsApiTool (env : AgentEnv) (category : String) (limit : Nat) :
    Except PyErr String × List Event :=
  if env.hasTool "news_api_tool" then
    if env.newsApiKeyPresent then
      (env.newsExec category limit, [.toolExec "news_api_tool" [category, toString limit]])
    else (.error (.valueError "NEWS_API_KEY not found in environment variables"), [])
  else (.ok "", [])

/-- `SimpleAgent._execute_startup_simulator` (`agent.py:372-428`). -/
def executeStartupSimulator (env : AgentEnv) (industry audience random_word hn_context : String) :
    Except PyErr String × List Event :=
  if env.hasTool "startup_simulator" then
    (env.sillyExec industry audience random_word hn_context,
     [.toolExec "startup_simulator" [industry, audience, random_word, hn_context]])
  else (.ok "", [])

/-- `SimpleAgent._execute_serious_startup_simulator` (`agent.py:430-486`). -/
def executeSeriousStartupSimulator (env : AgentEnv) (industry audience random_word news_context : String) :
    Except PyErr String × List Event :=
  if env.hasTool "serious_startup_simulator" then
    (env.seriousExec industry audience random_word news_context,
     [.toolExec "serious_startup_simulator" [industry, audience, random_word, news_context]])
  else (.ok "", [])

/-- The `workflow_result` record `run` serialises and returns on success
(`agent.py:614-629`), without its wall-clock timestamp. -/
structure RunResult where
  agentId : String
  mode : String
  task : String
  finalOutput : JValue
  toolsUsed : List String
  executionStatus : String

/-- `SimpleAgent.run` (`agent.py:488-642`): mode selection is the single
`if self.mode == "serious"` test; the context phase runs first, its result
is appended under the label `"news_api"`/`"hackernews"` and passed to the
generator; the generator result is appended under the registry tool name;
`_format_result` extracts the pitch; any raised error propagates. -/
def run (env : AgentEnv) (mode task industry audience random_word : String) :
    Except PyErr RunResult × List Event :=
  if mode = "serious" then
    let (ctx, ev1) := executeNewsApiTool env "business" 5
    match ctx with
    | .error e => (.error e, ev1)
    | .ok newsContext =>
      let (gen, ev2) := executeSeriousStartupSimulator env industry audience random_word newsContext
      match gen with
      | .error e => (.error e, ev1 ++ ev2)
      | .ok startupResult =>
        let results := [("news_api", JValue.jstr newsContext),
                        ("serious_startup_simulator", JValue.jstr startupResult)]
        match formatResult task results with
        | .error e => (.error e, ev1 ++ ev2 ++ [.formatCall])
        | .ok formatted =>
          (.ok { agentId := "startup-agent-" ++ mode, mode := mode, task := task,
                 finalOutput := formatted,
                 toolsUsed := ["news_api", "serious_startup_simulator"],
                 executionStatus := "success" },
           ev1 ++ ev2 ++ [.formatCall])
  else
    let (ctx, ev1) := executeHackernewsTool env 3
    match ctx with
    | .error e => (.error e, ev1)
    | .ok hnContext =>
      let (gen, ev2) := executeStartupSimulator env industry audience random_word hnContext
      match gen with
      | .error e => (.error e, ev1 ++ ev2)
      | .ok startupResult =>
        let results := [("hackernews", JValue.jstr hnContext),
                        ("startup_simulator", JValue.jstr startupResult)]
        match formatResult task results with
        | .error e => (.error e, ev1 ++ ev2 ++ [.formatCall])
        | .ok formatted =>
          (.ok { agentId := "startup-agent-" ++ mode, mode := mode, task := task,
                 finalOutput := formatted,
                 toolsUsed := ["hackernews", "startup_simulator"],
                 executionStatus := "success" },
           ev1 ++ ev2 ++ [.formatCall])

/-- `Embeds m l`: the character sequence `m` occurs contiguously inside `l`
(used to locate a pitch verbatim inside a serialised payload). -/
def Embeds (m l : List Char) : Prop := ∃ p q : List Char, p ++ m ++ q = l

/-- A generator environment whose text endpoint answers with 501 `a`s —
one character beyond the advertised 500-character limit. -/
def genEnvLong : GenEnv :=
  { llm := fun _ => ⟨List.replicate 501 'a'⟩,
    timestamp := "2024-01-01T00:00:00",
    inputTokens := 100, outputTokens := 120, totalTokens := 220 }

/-- A registry missing the silly generator (every other tool present and
succeeding): the misconfiguration scenario of the spec. -/
def envNoSillyGen : AgentEnv :=
  { hasTool := fun n => n != "startup_simulator",
    newsApiKeyPresent := true,
    hnExec := fun _ => .ok "hn stories",
    newsExec := fun _ _ => .ok "",
    sillyExec := fun _ _ _ _ => .ok "",
    seriousExec := fun _ _ _ _ => .ok "" }

/-- A fully-populated registry whose HackerNews tool raises (for example,
the no-Galileo fallback path hitting a non-200 response). -/
def envCtxRaises : AgentEnv :=
  { hasTool := fun _ => true,
    newsApiKeyPresent := true,
    hnExec := fun _ => .error (.exn "Failed to fetch top stories"),
    newsExec := fun _ _ => .ok "",
    sillyExec := fun _ _ _ _ => .ok "",
    seriousExec := fun _ _ _ _ => .ok "" }

/-- A fully-populated registry with every call succeeding on simple
payloads. -/
def envHappy : AgentEnv :=
  { hasTool := fun _ => true,
    newsApiKeyPresent := true,
    hnExec := fun _ => .ok "hn stories",
    newsExec := fun _ _ => .ok "news stories",
    sillyExec := fun _ _ _ _ => .ok (pitchJson "a silly pitch"),
    seriousExec := fun _ _ _ _ => .ok (pitchJson "a serious pitch") }

/-- A registry missing the HackerNews context tool, with a generator that
answers a well-formed pitch payload. -/
def envNoHN : AgentEnv :=
  { hasTool := fun n => n != "hackernews_tool",
    newsApiKeyPresent := true,
    hnExec := fun _ => .ok "hn stories",
    newsExec := fun _ _ => .ok "",
    sillyExec := fun _ _ _ _ => .ok (pitchJson "a pitch"),
    seriousExec := fun _ _ _ _ => .ok (pitchJson "a pitch") }

/-- A HackerNews-tool environment whose top-stories fetch fails while the
Galileo logger is available. -/
def hnEnvNetFail : HNEnv :=
  { galileoAvailable := true,
    topStories := .error (.exn "network unreachable"),
    item := fun _ => .ok none }

/-- Whether an event is an `execute` invocation of the named tool. -/
def isToolCallOf (name : String) : Event → Bool
  | .toolExec n _ => n == name
  | .formatCall => false

/-- Number of `execute` invocations of the named tool in a trace. -/
def toolCallCount (evs : List Event) (name : String) : Nat :=
  evs.countP (isToolCallOf name)

/-- A HackerNews-tool environment on the Galileo path with a reachable
feed. -/
def hnEnvOk : HNEnv :=
  { galileoAvailable := true,
    topStories := .ok [1, 2, 3],
    item := fun _ => .ok none }

/-- A HackerNews-tool environment on the no-Galileo fallback path. -/
def hnEnvFallback : HNEnv :=
  { galileoAvailable := false,
    topStories := .ok [1, 2, 3],
    item := fun _ => .ok none }

/-! ## Parser correctness on the payload fragment the claims need -/

theorem hexVal_hexDigitChar : ∀ m < 16, hexVal (hexDigitChar m) = some m := by decide

/-- `parseStringBody` inverts the JSON string-escaping of `encodeJStr` on
every character sequence. -/
theorem parseStringBody_escape (l : List Char) (rest : List Char) :
    parseStringBody (l.flatMap escCharL ++ '"' :: rest) = some (l, rest) := by
  induction l with
  | nil =>
    rw [List.flatMap_nil, List.nil_append, parseStringBody.eq_def]
    simp +decide
  | cons c l ih =>
    by_cases hq : c = '"'
    · subst hq
      have hflat : ('"' :: l).flatMap escCharL ++ '"' :: rest
          = '\\' :: '"' :: (l.flatMap escCharL ++ '"' :: rest) := by
        simp [escCharL]
      rw [hflat, parseStringBody.eq_def]
      simp +decide [ih]
    · by_cases hb : c = '\\'
      · subst hb
        have hflat : ('\\' :: l).flatMap escCharL ++ '"' :: rest
            = '\\' :: '\\' :: (l.flatMap escCharL ++ '"' :: rest) := by
          simp [escCharL]
        rw [hflat, parseStringBody.eq_def]
        simp +decide [ih]
      · by_cases hc : c.toNat < 32
        · have h0 : hexVal '0' = some 0 := by decide
          have h1 : hexVal (hexDigitChar (c.toNat / 16)) = some (c.toNat / 16) :=
            hexVal_hexDigitChar _ (by omega)
          have h2 : hexVal (hexDigitChar (c.toNat % 16)) = some (c.toNat % 16) :=
            hexVal_hexDigitChar _ (by omega)
          have hflat : (c :: l).flatMap escCharL ++ '"' :: rest
              = '\\' :: 'u' :: '0' :: '0' :: hexDigitChar (c.toNat / 16) ::
                hexDigitChar (c.toNat % 16) :: (l.flatMap escCharL ++ '"' :: rest) := by
            simp [escCharL, hq, hb, hc]
          rw [hflat, parseStringBody.eq_def]
          have hdm : c.toNat / 16 * 16 + c.toNat % 16 = c.toNat := by omega
          simp +decide [h0, h1, h2, hdm, Char.ofNat_toNat, ih]
        · have hflat : (c :: l).flatMap escCharL ++ '"' :: rest
              = c :: (l.flatMap escCharL ++ '"' :: rest) := by
            simp [escCharL, hq, hb, hc]
          rw [hflat, parseStringBody.eq_def]
          simp [hq, hb, hc, ih]

/-- The character data of `json.dumps({"pitch": x})`. -/
theorem pitchJson_data (x : String) :
    (pitchJson x).data = '\x7b' :: '"' :: 'p' :: 'i' :: 't' :: 'c' :: 'h' :: '"' :: ':' :: ' ' ::
      '"' :: (x.data.flatMap escCharL ++ ['"', '\x7d']) := by
  simp +decide [pitchJson, jsonDumps, dumpsFields, encodeJStr, escCharL]

theorem parseValue_strLitSp (f : Nat) (x : String) (rest : List Char) :
    parseValue (f + 1) (' ' :: '"' :: (x.data.flatMap escCharL ++ '"' :: rest))
      = some (.jstr x, rest) := by
  simp +decide [parseValue, skipWs, parseStringBody_escape]

theorem parseStringBody_pitchKey (tail : List Char) :
    parseStringBody ('p' :: 'i' :: 't' :: 'c' :: 'h' :: '"' :: tail)
      = some (['p', 'i', 't', 'c', 'h'], tail) := by
  have h1 : (['p', 'i', 't', 'c', 'h'] : List Char).flatMap escCharL
      = ['p', 'i', 't', 'c', 'h'] := by decide
  have h2 := parseStringBody_escape ['p', 'i', 't', 'c', 'h'] tail
  rw [h1] at h2
  simpa using h2

theorem parseValue_openBrace (f : Nat) (t : List Char) :
    parseValue (f + 1) ('\x7b' :: t) = parseObjBody f t := by
  simp +decide [parseValue, skipWs]

theorem parseObjBody_quote (f : Nat) (t : List Char) :
    parseObjBody (f + 1) ('"' :: t) = parseMembers f ('"' :: t) [] := by
  simp +decide [parseObjBody, skipWs]

theorem parseMembers_pitch (f : Nat) (x : String) :
    parseMembers (f + 2)
      ('"' :: 'p' :: 'i' :: 't' :: 'c' :: 'h' :: '"' :: ':' :: ' ' :: '"' ::
        (x.data.flatMap escCharL ++ ['"', '\x7d'])) []
      = some (.jobj [("pitch", .jstr x)], []) := by
  have hv := parseValue_strLitSp f x ['\x7d']
  have hk := parseStringBody_pitchKey
    (':' :: ' ' :: '"' :: (x.data.flatMap escCharL ++ ['"', '\x7d']))
  simp +decide [parseMembers, skipWs, hk, hv]

theorem parseValue_pitchJson (f : Nat) (x : String) :
    parseValue (f + 4) (pitchJson x).data = some (.jobj [("pitch", .jstr x)], []) := by
  rw [pitchJson_data]
  have h1 := parseValue_openBrace (f + 3)
    ('"' :: 'p' :: 'i' :: 't' :: 'c' :: 'h' :: '"' :: ':' :: ' ' :: '"' ::
      (x.data.flatMap escCharL ++ ['"', '\x7d']))
  have h2 := parseObjBody_quote (f + 2)
    ('p' :: 'i' :: 't' :: 'c' :: 'h' :: '"' :: ':' :: ' ' :: '"' ::
      (x.data.flatMap escCharL ++ ['"', '\x7d']))
  have h3 := parseMembers_pitch f x
  simpa [h2, h3] using h1

/-- `json.loads` inverts `json.dumps` on the single-member pitch object,
for every pitch string. -/
theorem jsonParse_pitchJson (x : String) :
    jsonParse (pitchJson x) = some (.jobj [("pitch", .jstr x)]) := by
  unfold jsonParse
  rw [parseValue_pitchJson ((pitchJson x).data.length) x]
  simp [skipWs]

/-- The formatter's per-entry extraction recovers the pitch from the
serialised single-member object, for every pitch string. -/
theorem pitchOf_pitchJson (x : String) :
    pitchOf (.jstr (pitchJson x)) = .ok (.jstr x) := by
  simp +decide [pitchOf, jsonParse_pitchJson, dictGet, lenGuard, pyLenDefined]

/-! ## Embedding helpers -/

theorem embeds_append_left (m s l : List Char) (h : Embeds m l) : Embeds m (s ++ l) := by
  obtain ⟨p, q, hp⟩ := h
  exact ⟨s ++ p, q, by simp [← hp]⟩

theorem embeds_append_right (m l t : List Char) (h : Embeds m l) : Embeds m (l ++ t) := by
  obtain ⟨p, q, hp⟩ := h
  exact ⟨p, q ++ t, by simp [← hp]⟩

theorem embeds_cons (m : List Char) (c : Char) (l : List Char) (h : Embeds m l) :
    Embeds m (c :: l) := by
  obtain ⟨p, q, hp⟩ := h
  exact ⟨c :: p, q, by simp [← hp]⟩

theorem flatMap_escCharL_replicate_a (n : Nat) :
    (List.replicate n 'a').flatMap escCharL = List.replicate n 'a' := by
  induction n with
  | zero => rfl
  | succ m ih => simp +decide [List.replicate_succ, ih, escCharL]

theorem dropWhile_isPySpace_replicate_a (n : Nat) :
    List.dropWhile isPySpace (List.replicate n 'a') = List.replicate n 'a' := by
  cases n with
  | zero => rfl
  | succ m => simp +decide [List.replicate_succ, List.dropWhile_cons]

theorem pyStrip_replicate_a (n : Nat) :
    pyStrip ⟨List.replicate n 'a'⟩ = ⟨List.replicate n 'a'⟩ := by
  show (⟨((((List.replicate n 'a').dropWhile isPySpace).reverse.dropWhile isPySpace).reverse)⟩ : String)
      = ⟨List.replicate n 'a'⟩
  rw [dropWhile_isPySpace_replicate_a, List.reverse_replicate,
    dropWhile_isPySpace_replicate_a, List.reverse_replicate]

/-- The pitch lies verbatim inside the JSON encoding of any string field. -/
theorem embeds_encodeJStr_replicate_a (n : Nat) :
    Embeds (List.replicate n 'a') (encodeJStr ⟨List.replicate n 'a'⟩).data := by
  refine ⟨['"'], ['"'], ?_⟩
  simp [encodeJStr, flatMap_escCharL_replicate_a]

theorem embeds_refl (m : List Char) : Embeds m m := ⟨[], [], by simp⟩

theorem embeds_trans (a b c : List Char) (h1 : Embeds a b) (h2 : Embeds b c) : Embeds a c := by
  obtain ⟨p1, q1, hp1⟩ := h1
  obtain ⟨p2, q2, hp2⟩ := h2
  exact ⟨p2 ++ p1, q1 ++ q2, by rw [← hp2, ← hp1]; simp⟩

/-- A string member's JSON encoding occurs verbatim inside the
serialisation of the member list containing it. -/
theorem embeds_value_dumpsFields (x : String) :
    ∀ (fs : List (String × JValue)) (k : String), (k, JValue.jstr x) ∈ fs →
      Embeds (encodeJStr x).data (dumpsFields fs).data := by
  intro fs
  induction fs with
  | nil => intro k h; cases h
  | cons a l ih =>
    intro k h
    rcases List.mem_cons.mp h with heq | hmem
    · cases l with
      | nil =>
        subst heq
        show Embeds _ (encodeJStr k ++ ": " ++ jsonDumps (.jstr x)).data
        have hr : Embeds (encodeJStr x).data (jsonDumps (JValue.jstr x)).data :=
          embeds_refl _
        simpa [List.append_assoc] using
          embeds_append_left _ ((encodeJStr k).data ++ ": ".data) _
            (by simpa using hr)
      | cons b bs =>
        subst heq
        show Embeds _
          (encodeJStr k ++ ": " ++ jsonDumps (.jstr x) ++ ", " ++ dumpsFields (b :: bs)).data
        have hr : Embeds (encodeJStr x).data
            ((jsonDumps (JValue.jstr x)).data ++ (", ".data ++ (dumpsFields (b :: bs)).data)) :=
          embeds_append_right _ _ _ (embeds_refl _)
        simpa [List.append_assoc] using
          embeds_append_left _ ((encodeJStr k).data ++ ": ".data) _ hr
    · cases l with
      | nil => cases hmem
      | cons b bs =>
        have htail := ih k hmem
        show Embeds _
          (encodeJStr a.1 ++ ": " ++ jsonDumps a.2 ++ ", " ++ dumpsFields (b :: bs)).data
        simpa [List.append_assoc] using
          embeds_append_left _
            ((encodeJStr a.1).data ++ (": ".data ++ ((jsonDumps a.2).data ++ ", ".data))) _ htail

/-- A string member's JSON encoding occurs verbatim inside the
serialisation of any object containing it. -/
theorem embeds_value_dumps_jobj (x : String) (fs : List (String × JValue)) (k : String)
    (h : (k, JValue.jstr x) ∈ fs) :
    Embeds (encodeJStr x).data (jsonDumps (.jobj fs)).data := by
  have h1 := embeds_value_dumpsFields x fs k h
  show Embeds _ ('\x7b' :: ((dumpsFields fs).data ++ ['\x7d']))
  exact embeds_cons _ _ _ (embeds_append_right _ _ _ h1)


/-! ## Claim C6: formatter round-trip -/

/-- C6: for every string `X`, `_format_result` applied to a results list
containing a generator entry whose raw output is the JSON string
`{"pitch": "X"}` returns `X`; applied to an entry whose raw output is
already a record `{"pitch": "X"}` it also returns `X`; and a raw-output
string that fails to decode as JSON is returned verbatim rather than
raised as an error. -/
theorem c6_formatter_round_trip (task x : String) :
    formatResult task [("startup_simulator", .jstr (pitchJson x))] = .ok (.jstr x)
    ∧ formatResult task [("startup_simulator", .jobj [("pitch", .jstr x)])] = .ok (.jstr x)
    ∧ formatResult task [("serious_startup_simulator", .jstr (pitchJson x))] = .ok (.jstr x)
    ∧ formatResult task [("serious_startup_simulator", .jobj [("pitch", .jstr x)])] = .ok (.jstr x)
    ∧ (∀ s : String, jsonParse s = none →
        formatResult task [("startup_simulator", .jstr s)] = .ok (.jstr s)) := by
  refine ⟨?_, ?_, ?_, ?_, ?_⟩
  · simp +decide [formatResult, findToolResult, pitchOf_pitchJson]
  · simp +decide [formatResult, findToolResult, pitchOf, dictGet, lenGuard, pyLenDefined]
  · simp +decide [formatResult, findToolResult, pitchOf_pitchJson]
  · simp +decide [formatResult, findToolResult, pitchOf, dictGet, lenGuard, pyLenDefined]
  · intro s hs
    simp +decide [formatResult, findToolResult, pitchOf, hs]

/-- Witness for C6 at concrete inputs. -/
theorem c6_formatter_round_trip_witness :
    formatResult "make a pitch" [("startup_simulator", .jstr (pitchJson "hello"))]
      = .ok (.jstr "hello")
    ∧ formatResult "make a pitch" [("startup_simulator", .jstr "not json")]
      = .ok (.jstr "not json") :=
  ⟨(c6_formatter_round_trip "make a pitch" "hello").1,
   (c6_formatter_round_trip "make a pitch" "hello").2.2.2.2 "not json" rfl⟩

/-! ## Claim C7: which generator entry the formatter extracts -/

/-- C7 counterexample: `_format_result` takes no mode input at all; with a
`serious_startup_simulator` entry listed *first*, it still extracts the
`startup_simulator` entry's pitch, contradicting the claim that in serious
mode the serious entry is preferred. -/
theorem c7_counterexample :
    formatResult "generate a pitch"
      [("serious_startup_simulator", .jstr (pitchJson "serious pitch A")),
       ("startup_simulator", .jstr (pitchJson "silly pitch B"))]
      = .ok (.jstr "silly pitch B")
    ∧ "silly pitch B" ≠ "serious pitch A" := by
  constructor
  · simp +decide [formatResult, findToolResult, pitchOf_pitchJson]
  · decide

/-- C7 amended: the formatter scans mode-independently, silly first: the
first `startup_simulator` entry wins no matter which entries (including
serious ones) precede or follow it. -/
theorem c7_amended (task : String) (pre post : List (String × JValue)) (r : JValue)
    (hpre : ∀ p ∈ pre, p.1 ≠ "startup_simulator") :
    formatResult task (pre ++ ("startup_simulator", r) :: post) = pitchOf r := by
  have hfind : (pre ++ ("startup_simulator", r) :: post).find?
      (fun p => p.1 == "startup_simulator") = some ("startup_simulator", r) := by
    induction pre with
    | nil => simp
    | cons a l ih =>
      have ha : a.1 ≠ "startup_simulator" := hpre a (List.mem_cons_self a l)
      have hl : ∀ p ∈ l, p.1 ≠ "startup_simulator" :=
        fun p hp => hpre p (List.mem_cons_of_mem a hp)
      simpa [List.find?_cons, ha] using ih hl
  simp [formatResult, findToolResult, hfind]

/-- Witness for C7 amended: a serious entry listed first is skipped. -/
theorem c7_amended_witness :
    formatResult "t"
      [("serious_startup_simulator", .jstr "x"),
       ("startup_simulator", .jobj [("pitch", .jstr "p")])]
      = .ok (.jstr "p") := by
  have h := c7_amended "t" [("serious_startup_simulator", .jstr "x")] []
    (.jobj [("pitch", .jstr "p")]) (by intro p hp; simp at hp; simp [hp])
  simpa [pitchOf, dictGet, lenGuard, pyLenDefined] using h

/-! ## Claim C2: generator truncation -/

/-- C2 counterexample: with the text endpoint answering 501 characters,
the silly generator's pitch keeps all 501 characters — the tool performs
no truncation; the full 501-character run is embedded verbatim in the JSON
string `execute` returns, and the formatter's extraction returns it
unchanged. -/
theorem c2_counterexample :
    ¬ (sillyPitch genEnvLong "tech" "students" "cloud" "ctx").length ≤ 500
    ∧ (sillyPitch genEnvLong "tech" "students" "cloud" "ctx").length = 501
    ∧ Embeds (List.replicate 501 'a')
        (startupSimulatorExecute genEnvLong "tech" "students" "cloud" "ctx").data
    ∧ pitchOf (sillyOutput genEnvLong "tech" "students" "cloud" "ctx")
        = .ok (.jstr (sillyPitch genEnvLong "tech" "students" "cloud" "ctx")) := by
  have hp : sillyPitch genEnvLong "tech" "students" "cloud" "ctx"
      = ⟨List.replicate 501 'a'⟩ := by
    show pyStrip (genEnvLong.llm _) = _
    rw [show genEnvLong.llm (sillyPrompt "tech" "students" "cloud" "ctx")
        = ⟨List.replicate 501 'a'⟩ from rfl]
    exact pyStrip_replicate_a 501
  have hlen : (sillyPitch genEnvLong "tech" "students" "cloud" "ctx").length = 501 := by
    rw [hp]
    show (List.replicate 501 'a').length = 501
    exact List.length_replicate 501 'a'
  refine ⟨by omega, hlen, ?_, ?_⟩
  · have h1 := embeds_encodeJStr_replicate_a 501
    have h2 : Embeds (encodeJStr ⟨List.replicate 501 'a'⟩).data
        (startupSimulatorExecute genEnvLong "tech" "students" "cloud" "ctx").data := by
      apply embeds_value_dumps_jobj _ _ "pitch"
      rw [← hp]
      exact List.mem_cons_of_mem _ (List.mem_cons_of_mem _ (List.mem_cons_self _ _))
    exact embeds_trans _ _ _ h1 h2
  · simp [pitchOf, sillyOutput, dictGet, lenGuard, pyLenDefined]

/-- C2 amended: neither generator truncates anything: whatever length the
text endpoint answers with (here `n` repeated characters), the pitch in
the tool's structured output has exactly that length; the only place the
500-character limit exists is as instruction text inside the prompt. -/
theorem c2_amended (n : Nat) (ts : String) (it ot tt : Nat) (i a w c : String) :
    (sillyPitch ⟨fun _ => ⟨List.replicate n 'a'⟩, ts, it, ot, tt⟩ i a w c).length = n
    ∧ (seriousPitch ⟨fun _ => ⟨List.replicate n 'a'⟩, ts, it, ot, tt⟩ i a w c).length = n
    ∧ Embeds "Keep it under 500 characters total.".data (sillyPrompt i a w c).data
    ∧ Embeds "keep it under 500 characters total.".data (seriousPrompt i a w c).data := by
  refine ⟨?_, ?_, ?_, ?_⟩
  · show (pyStrip ⟨List.replicate n 'a'⟩).length = n
    rw [pyStrip_replicate_a]
    show (List.replicate n 'a').length = n
    exact List.length_replicate n 'a'
  · show (pyStrip ⟨List.replicate n 'a'⟩).length = n
    rw [pyStrip_replicate_a]
    show (List.replicate n 'a').length = n
    exact List.length_replicate n 'a'
  · simp only [sillyPrompt, String.data_append, List.append_assoc]
    apply embeds_append_left
    apply embeds_append_left
    apply embeds_append_left
    apply embeds_append_left
    apply embeds_append_left
    apply embeds_append_left
    apply embeds_append_left
    exact embeds_append_right _ _ _ (embeds_refl _)
  · simp only [seriousPrompt, String.data_append, List.append_assoc]
    apply embeds_append_left
    apply embeds_append_left
    apply embeds_append_left
    apply embeds_append_left
    apply embeds_append_left
    apply embeds_append_left
    apply embeds_append_right
    exact ⟨"' naturally. Be formal, avoid humor, and ".data, [], by decide⟩

/-! ## Claim C3: missing generator entry in the registry -/

/-- C3 counterexample: with the silly generator absent from the registry,
`run` indeed does not throw, but the returned pitch is the empty string —
`_format_result` still finds a `("startup_simulator", "")` entry (the
helper returned `""`), fails to decode `""` and returns it verbatim; the
sentinel `"No startup pitch generated."` never appears. -/
theorem c3_counterexample :
    Except.map RunResult.finalOutput
      (run envNoSillyGen "silly" "make a pitch" "tech" "students" "cloud").1 = .ok (.jstr "")
    ∧ (run envNoSillyGen "silly" "make a pitch" "tech" "students" "cloud").2
        = [.toolExec "hackernews_tool" ["3"], .formatCall]
    ∧ ("" : String) ≠ "No startup pitch generated." := by
  refine ⟨rfl, rfl, by decide⟩

/-- C3 amended: with the active (silly) mode's generator missing from the
registry and a context phase that does not raise, `run` completes without
throwing, but its extracted pitch is the *empty string*, not the sentinel:
the helper's not-found contract returns `""`, which the formatter passes
through verbatim. -/
theorem c3_amended (env : AgentEnv) (mode task i a w ctx : String)
    (hmode : mode ≠ "serious")
    (hgen : env.hasTool "startup_simulator" = false)
    (hctx : (executeHackernewsTool env 3).1 = .ok ctx) :
    Except.map RunResult.finalOutput (run env mode task i a w).1 = .ok (.jstr "") := by
  unfold run
  rw [if_neg hmode]
  rcases hE : executeHackernewsTool env 3 with ⟨r, evs⟩
  rw [hE] at hctx
  simp only at hctx
  subst hctx
  have hnone : jsonParse "" = none := rfl
  simp +decide [executeStartupSimulator, hgen, formatResult, findToolResult, pitchOf, hnone]
  rfl


/-- Witness for C3 amended at the concrete misconfigured registry. -/
theorem c3_amended_witness :
    Except.map RunResult.finalOutput
      (run envNoSillyGen "silly" "make a pitch" "tech" "students" "cloud").1
      = .ok (.jstr "") :=
  c3_amended envNoSillyGen "silly" "make a pitch" "tech" "students" "cloud" "hn stories"
    (by decide) rfl rfl

/-! ## Claim C1: context-phase failure containment -/

/-- C1 counterexample: a context-provider failure in which the tool's
`execute` raises (as the no-Galileo fallback does on a non-200 response)
makes `run` raise as well: the generator is never invoked, and no
empty-string degradation happens. -/
theorem c1_counterexample :
    (run envCtxRaises "silly" "t" "i" "a" "w").1 = .error (.exn "Failed to fetch top stories")
    ∧ (run envCtxRaises "silly" "t" "i" "a" "w").2 = [.toolExec "hackernews_tool" ["3"]] :=
  ⟨rfl, rfl⟩

/-- C1 amended: the empty-string degradation exists only for the
*missing-tool* case: (1) with the HackerNews tool absent from the registry
the generator is invoked with `""` as context and `run` completes; (2) if
the context tool's `execute` raises, `run` propagates the error and the
generator is never invoked; (3) a network failure *inside* the tool's
Galileo path is swallowed by the tool, which returns a JSON payload with
an empty story list — a non-empty context string, not `""`. -/
theorem c1_amended (env : AgentEnv) (mode task i a w g : String)
    (gf : List (String × JValue)) (e : PyErr) :
    (mode ≠ "serious" → env.hasTool "hackernews_tool" = false →
      env.hasTool "startup_simulator" = true →
      env.sillyExec i a w "" = .ok g →
      jsonParse g = some (.jobj gf) →
      pyLenDefined (dictGet gf "pitch" (.jstr "")) = true →
      (run env mode task i a w).2
          = [.toolExec "startup_simulator" [i, a, w, ""], .formatCall]
        ∧ ∃ res, (run env mode task i a w).1 = .ok res)
    ∧ (mode ≠ "serious" → env.hasTool "hackernews_tool" = true →
      env.hnExec 3 = .error e →
      (run env mode task i a w).1 = .error e
        ∧ (run env mode task i a w).2 = [.toolExec "hackernews_tool" ["3"]])
    ∧ (∀ (henv : HNEnv) (ts : String) (limit : Nat),
        henv.galileoAvailable = true → henv.topStories = .error e →
        (hackerNewsExecute henv ts limit).1 = .ok (jsonDumps (hnGalileoOutput [] limit))
          ∧ jsonDumps (hnGalileoOutput [] limit) ≠ "") := by
  refine ⟨?_, ?_, ?_⟩
  · intro hmode hno hgen hok hparse hlendef
    unfold run
    rw [if_neg hmode]
    simp only [executeHackernewsTool, hno, Bool.false_eq_true, if_false]
    simp only [executeStartupSimulator, hgen, if_true, hok]
    have hfmt : formatResult task
        [("hackernews", JValue.jstr ""), ("startup_simulator", JValue.jstr g)]
        = .ok (dictGet gf "pitch" (.jstr "")) := by
      simp +decide [formatResult, findToolResult, pitchOf, hparse, lenGuard, hlendef]
    simp [hfmt]
  · intro hmode hyes herr
    unfold run
    rw [if_neg hmode]
    simp only [executeHackernewsTool, hyes, if_true, herr]
    exact ⟨trivial, rfl⟩
  · intro henv ts limit hg htop
    constructor
    · unfold hackerNewsExecute
      rw [hg]
      simp [hnGetTopStories, htop, hnCollect]
    · intro hcontra
      have hdata := congrArg String.data hcontra
      simp [hnGalileoOutput, jsonDumps] at hdata

/-- Witness for C1 amended, at concrete environments for each scenario. -/
theorem c1_amended_witness :
    ((run envNoHN "silly" "t" "i" "a" "w").2
        = [.toolExec "startup_simulator" ["i", "a", "w", ""], .formatCall]
      ∧ ∃ res, (run envNoHN "silly" "t" "i" "a" "w").1 = .ok res)
    ∧ ((run envCtxRaises "silly" "t" "i" "a" "w").1
          = .error (.exn "Failed to fetch top stories")
      ∧ (run envCtxRaises "silly" "t" "i" "a" "w").2 = [.toolExec "hackernews_tool" ["3"]])
    ∧ ((hackerNewsExecute hnEnvNetFail "tstamp" 3).1 = .ok (jsonDumps (hnGalileoOutput [] 3))
      ∧ jsonDumps (hnGalileoOutput [] 3) ≠ "") :=
  ⟨(c1_amended envNoHN "silly" "t" "i" "a" "w" (pitchJson "a pitch")
      [("pitch", .jstr "a pitch")] (.exn "unused")).1
        (by decide) rfl rfl rfl rfl rfl,
   (c1_amended envCtxRaises "silly" "t" "i" "a" "w" ""
      [] (.exn "Failed to fetch top stories")).2.1
        (by decide) rfl rfl,
   (c1_amended envNoHN "silly" "t" "i" "a" "w" ""
      [] (.exn "network unreachable")).2.2 hnEnvNetFail "tstamp" 3 rfl rfl⟩

/-! ## Claim C4: generator failure is fatal -/

/-- In either helper, the emitted events are tool invocations only — the
formatter call is emitted by `run` itself after both phases. -/
theorem formatCall_not_in_hn_events (env : AgentEnv) (limit : Nat) :
    Event.formatCall ∉ (executeHackernewsTool env limit).2 := by
  unfold executeHackernewsTool
  split <;> simp

theorem formatCall_not_in_news_events (env : AgentEnv) (category : String) (limit : Nat) :
    Event.formatCall ∉ (executeNewsApiTool env category limit).2 := by
  unfold executeNewsApiTool
  split
  · split <;> simp
  · simp

/-- C4: if the active mode's generator `execute` raises, `run` propagates
exactly that error to its caller and `_format_result` is never invoked —
no partial or fallback pitch is produced. -/
theorem c4_generator_failure_fatal (env : AgentEnv) (mode task i a w ctx : String) (e : PyErr) :
    (mode ≠ "serious" →
      env.hasTool "startup_simulator" = true →
      (∀ c, env.sillyExec i a w c = .error e) →
      (executeHackernewsTool env 3).1 = .ok ctx →
      (run env mode task i a w).1 = .error e
        ∧ Event.formatCall ∉ (run env mode task i a w).2)
    ∧ (mode = "serious" →
      env.hasTool "serious_startup_simulator" = true →
      (∀ c, env.seriousExec i a w c = .error e) →
      (executeNewsApiTool env "business" 5).1 = .ok ctx →
      (run env mode task i a w).1 = .error e
        ∧ Event.formatCall ∉ (run env mode task i a w).2) := by
  constructor
  · intro hmode hgen herr hctx
    have hnoF := formatCall_not_in_hn_events env 3
    unfold run
    rw [if_neg hmode]
    rcases hE : executeHackernewsTool env 3 with ⟨r, evs⟩
    rw [hE] at hctx hnoF
    simp only at hctx hnoF
    subst hctx
    simp +decide [executeStartupSimulator, hgen, herr ctx, hnoF]
  · intro hmode hgen herr hctx
    have hnoF := formatCall_not_in_news_events env "business" 5
    unfold run
    rw [if_pos hmode]
    rcases hE : executeNewsApiTool env "business" 5 with ⟨r, evs⟩
    rw [hE] at hctx hnoF
    simp only at hctx hnoF
    subst hctx
    simp +decide [executeSeriousStartupSimulator, hgen, herr ctx, hnoF]

/-- Witness for C4: a concrete run in each mode whose generator raises. -/
theorem c4_generator_failure_fatal_witness :
    ((run { envHappy with sillyExec := fun _ _ _ _ => .error (.exn "llm down") }
        "silly" "t" "i" "a" "w").1 = .error (.exn "llm down")
      ∧ Event.formatCall ∉ (run { envHappy with sillyExec := fun _ _ _ _ => .error (.exn "llm down") }
        "silly" "t" "i" "a" "w").2)
    ∧ ((run { envHappy with seriousExec := fun _ _ _ _ => .error (.exn "llm down") }
        "serious" "t" "i" "a" "w").1 = .error (.exn "llm down")
      ∧ Event.formatCall ∉ (run { envHappy with seriousExec := fun _ _ _ _ => .error (.exn "llm down") }
        "serious" "t" "i" "a" "w").2) :=
  ⟨(c4_generator_failure_fatal
      { envHappy with sillyExec := fun _ _ _ _ => .error (.exn "llm down") }
      "silly" "t" "i" "a" "w" "hn stories" (.exn "llm down")).1
      (by decide) rfl (fun _ => rfl) rfl,
   (c4_generator_failure_fatal
      { envHappy with seriousExec := fun _ _ _ _ => .error (.exn "llm down") }
      "serious" "t" "i" "a" "w" "news stories" (.exn "llm down")).2
      rfl rfl (fun _ => rfl) rfl⟩

/-! ## Claim C5: exactly one context call and one generator call, in order -/

/-- C5 counterexample: in a run whose context tool raises, zero generator
invocations occur (the trace is the single context invocation), refuting
"each call to run invokes ... exactly one generator tool". -/
theorem c5_counterexample :
    (run envCtxRaises "silly" "t" "i" "a" "w").2 = [.toolExec "hackernews_tool" ["3"]]
    ∧ toolCallCount (run envCtxRaises "silly" "t" "i" "a" "w").2 "startup_simulator" = 0
    ∧ toolCallCount (run envCtxRaises "silly" "t" "i" "a" "w").2 "hackernews_tool" = 1 :=
  ⟨rfl, rfl, rfl⟩

/-- C5 amended: in every run where the mode's two tools are registered and
the context phase does not raise, the trace starts with exactly the
context invocation followed by the generator invocation (which receives
the context result), each occurring exactly once; if the context phase
raises, the run aborts with no generator invocation (see the
counterexample). -/
theorem c5_amended (env : AgentEnv) (mode task i a w ctx : String) :
    (mode ≠ "serious" →
      env.hasTool "hackernews_tool" = true →
      env.hasTool "startup_simulator" = true →
      env.hnExec 3 = .ok ctx →
      ∃ tail : List Event,
        (run env mode task i a w).2
            = .toolExec "hackernews_tool" ["3"]
              :: .toolExec "startup_simulator" [i, a, w, ctx] :: tail
          ∧ toolCallCount (run env mode task i a w).2 "hackernews_tool" = 1
          ∧ toolCallCount (run env mode task i a w).2 "startup_simulator" = 1
          ∧ toolCallCount tail "hackernews_tool" = 0
          ∧ toolCallCount tail "startup_simulator" = 0)
    ∧ (mode = "serious" →
      env.hasTool "news_api_tool" = true →
      env.hasTool "serious_startup_simulator" = true →
      env.newsApiKeyPresent = true →
      env.newsExec "business" 5 = .ok ctx →
      ∃ tail : List Event,
        (run env mode task i a w).2
            = .toolExec "news_api_tool" ["business", "5"]
              :: .toolExec "serious_startup_simulator" [i, a, w, ctx] :: tail
          ∧ toolCallCount (run env mode task i a w).2 "news_api_tool" = 1
          ∧ toolCallCount (run env mode task i a w).2 "serious_startup_simulator" = 1
          ∧ toolCallCount tail "news_api_tool" = 0
          ∧ toolCallCount tail "serious_startup_simulator" = 0) := by
  constructor
  · intro hmode hhn hgen hctx
    unfold run
    rw [if_neg hmode]
    simp only [executeHackernewsTool, hhn, if_true, hctx,
      executeStartupSimulator, hgen]
    rcases hG : env.sillyExec i a w ctx with e | g
    · exact ⟨[], by simp +decide [hG, toolCallCount, isToolCallOf]⟩
    · rcases hF : formatResult task
        [("hackernews", JValue.jstr ctx), ("startup_simulator", JValue.jstr g)] with e | fmt
      · exact ⟨[.formatCall], by simp +decide [hG, hF, toolCallCount, isToolCallOf]⟩
      · exact ⟨[.formatCall], by simp +decide [hG, hF, toolCallCount, isToolCallOf]⟩
  · intro hmode hnews hgen hkey hctx
    unfold run
    rw [if_pos hmode]
    simp only [executeNewsApiTool, hnews, hkey, if_true, hctx,
      executeSeriousStartupSimulator, hgen]
    rcases hG : env.seriousExec i a w ctx with e | g
    · exact ⟨[], by simp +decide [hG, toolCallCount, isToolCallOf]⟩
    · rcases hF : formatResult task
        [("news_api", JValue.jstr ctx), ("serious_startup_simulator", JValue.jstr g)] with e | fmt
      · exact ⟨[.formatCall], by simp +decide [hG, hF, toolCallCount, isToolCallOf]⟩
      · exact ⟨[.formatCall], by simp +decide [hG, hF, toolCallCount, isToolCallOf]⟩

/-- Witness for C5 amended at a concrete successful run in each mode. -/
theorem c5_amended_witness :
    (∃ tail : List Event,
      (run envHappy "silly" "t" "i" "a" "w").2
          = .toolExec "hackernews_tool" ["3"]
            :: .toolExec "startup_simulator" ["i", "a", "w", "hn stories"] :: tail
        ∧ toolCallCount (run envHappy "silly" "t" "i" "a" "w").2 "hackernews_tool" = 1
        ∧ toolCallCount (run envHappy "silly" "t" "i" "a" "w").2 "startup_simulator" = 1
        ∧ toolCallCount tail "hackernews_tool" = 0
        ∧ toolCallCount tail "startup_simulator" = 0)
    ∧ (∃ tail : List Event,
      (run envHappy "serious" "t" "i" "a" "w").2
          = .toolExec "news_api_tool" ["business", "5"]
            :: .toolExec "serious_startup_simulator" ["i", "a", "w", "news stories"] :: tail
        ∧ toolCallCount (run envHappy "serious" "t" "i" "a" "w").2 "news_api_tool" = 1
        ∧ toolCallCount (run envHappy "serious" "t" "i" "a" "w").2 "serious_startup_simulator" = 1
        ∧ toolCallCount tail "news_api_tool" = 0
        ∧ toolCallCount tail "serious_startup_simulator" = 0) :=
  ⟨(c5_amended envHappy "silly" "t" "i" "a" "w" "hn stories").1
      (by decide) rfl rfl rfl,
   (c5_amended envHappy "serious" "t" "i" "a" "w" "news stories").2
      rfl rfl rfl rfl rfl⟩

/-! ## Claim C9: the task string does not influence the run -/

/-- `_format_result` uses its `task` argument only for log text. -/
theorem formatResult_task_irrel (t1 t2 : String) (results : List (String × JValue)) :
    formatResult t1 results = formatResult t2 results := rfl

/-- C9: two runs differing only in the task string invoke the same tools
with the same arguments (identical traces) and produce the same extracted
pitch, the same tool list and the same status; only the logged task field
differs. -/
theorem c9_task_noninterference (env : AgentEnv) (mode t1 t2 i a w : String) :
    (run env mode t1 i a w).2 = (run env mode t2 i a w).2
    ∧ Except.map RunResult.finalOutput (run env mode t1 i a w).1
        = Except.map RunResult.finalOutput (run env mode t2 i a w).1
    ∧ Except.map RunResult.toolsUsed (run env mode t1 i a w).1
        = Except.map RunResult.toolsUsed (run env mode t2 i a w).1
    ∧ Except.map RunResult.executionStatus (run env mode t1 i a w).1
        = Except.map RunResult.executionStatus (run env mode t2 i a w).1 := by
  unfold run
  simp only [formatResult_task_irrel t1 t2]
  by_cases hmode : mode = "serious"
  · subst hmode
    rw [if_pos rfl, if_pos rfl]
    refine ⟨?_, ?_, ?_, ?_⟩ <;> (repeat' split) <;> rfl
  · rw [if_neg hmode, if_neg hmode]
    refine ⟨?_, ?_, ?_, ?_⟩ <;> (repeat' split) <;> rfl

/-! ## Claim C10: mode selection is a binary check against "serious" -/

/-- C10: every mode string other than exactly `"serious"` (misspellings,
capitalisations, the empty string, arbitrary text) runs precisely the
silly pipeline — the same trace (HackerNews context then silly generator),
the same pitch, the same tool list; no mode value is rejected. -/
theorem c10_mode_fallback (env : AgentEnv) (mode task i a w : String)
    (hmode : mode ≠ "serious") :
    (run env mode task i a w).2 = (run env "silly" task i a w).2
    ∧ Except.map RunResult.finalOutput (run env mode task i a w).1
        = Except.map RunResult.finalOutput (run env "silly" task i a w).1
    ∧ Except.map RunResult.toolsUsed (run env mode task i a w).1
        = Except.map RunResult.toolsUsed (run env "silly" task i a w).1
    ∧ Except.map RunResult.executionStatus (run env mode task i a w).1
        = Except.map RunResult.executionStatus (run env "silly" task i a w).1 := by
  unfold run
  rw [if_neg hmode, if_neg (by decide : ("silly" : String) ≠ "serious")]
  refine ⟨?_, ?_, ?_, ?_⟩ <;> (dsimp only; repeat' split) <;> rfl

/-- Witness for C10 at the misspelled mode `"Serious"`. -/
theorem c10_mode_fallback_witness :
    (run envHappy "Serious" "t" "i" "a" "w").2 = (run envHappy "silly" "t" "i" "a" "w").2
    ∧ Except.map RunResult.finalOutput (run envHappy "Serious" "t" "i" "a" "w").1
        = Except.map RunResult.finalOutput (run envHappy "silly" "t" "i" "a" "w").1
    ∧ Except.map RunResult.toolsUsed (run envHappy "Serious" "t" "i" "a" "w").1
        = Except.map RunResult.toolsUsed (run envHappy "silly" "t" "i" "a" "w").1
    ∧ Except.map RunResult.executionStatus (run envHappy "Serious" "t" "i" "a" "w").1
        = Except.map RunResult.executionStatus (run envHappy "silly" "t" "i" "a" "w").1 :=
  c10_mode_fallback envHappy "Serious" "t" "i" "a" "w" (by decide)

/-! ## Claim C8: HTTP session release -/

/-- C8: on the Galileo path, `HackerNewsTool.execute` returns with the
pooled session still open — nothing on that path ever closes it (only the
unused `__aexit__` would); the no-Galileo fallback path, by contrast, uses
a scoped session that is closed on return. -/
theorem c8_hn_session_leak :
    (hackerNewsExecute hnEnvOk "tstamp" 3).2 = true
    ∧ (hackerNewsExecute hnEnvNetFail "tstamp" 3).2 = true
    ∧ (hackerNewsExecute hnEnvFallback "tstamp" 3).2 = false :=
  ⟨rfl, rfl, rfl⟩

end StartupSim
